import Mathlib

/-!
# A verification development for `src/init.c`

`init.c` is a minimal process-1 program: it installs a `SIGTERM` handler,
mounts three pseudo-filesystems, makes sure `/dev/console` exists, runs the
network set-up script and then idles in `pause()`.

The program is embedded with explicit state passing.  Every library call of
the C code appends one `Call` to the `trace` of a `World` and obtains its
`int` result from `World.kernel`, a function of the whole history of calls.
Quantifying over all kernels therefore covers every combination of results
the operating system can hand back.

Signals are an input of the run: the list of signals sent to the process
while it is blocked in `pause()`, in order of arrival.
-/

namespace Init

/-! ## Platform constants (Linux headers) -/

/-- Linux `<sys/mount.h>`: `MS_NOSUID`. -/
def MS_NOSUID : Nat := 2

/-- Linux `<sys/mount.h>`: `MS_NODEV`. -/
def MS_NODEV : Nat := 4

/-- Linux `<sys/mount.h>`: `MS_NOEXEC`. -/
def MS_NOEXEC : Nat := 8

/-- Linux `<signal.h>`: `SIGTERM`. -/
def SIGTERM : Int := 15

/-- Linux `<signal.h>`: `SIGINT`. -/
def SIGINT : Int := 2

/-- Linux `<unistd.h>`: `F_OK`. -/
def F_OK : Nat := 0

/-- Linux `<sys/stat.h>`: `S_IFMT`, the mask of the file-type bits of a mode. -/
def S_IFMT : Nat := 0o170000

/-- Linux `<sys/stat.h>`: `S_IFCHR`, the file type "character special". -/
def S_IFCHR : Nat := 0o020000

/-- Linux `<linux/reboot.h>`: `LINUX_REBOOT_CMD_RESTART`. -/
def LINUX_REBOOT_CMD_RESTART : Nat := 0x01234567

/-- The `makedev` of `<sys/sysmacros.h>` (glibc and musl use the same 64-bit
`dev_t` encoding). -/
def makedev (maj min : Nat) : Nat :=
  (((maj &&& 0x00000fff) <<< 8) ||| ((maj &&& 0xfffff000) <<< 32) |||
    ((min &&& 0x000000ff) <<< 0) ||| ((min &&& 0xffffff00) <<< 12)) % 2 ^ 64

/-- The `major` of `<sys/sysmacros.h>`. -/
def major (dev : Nat) : Nat :=
  (((dev &&& 0x00000000000fff00) >>> 8) ||| ((dev &&& 0xfffff00000000000) >>> 32)) % 2 ^ 32

/-- The `minor` of `<sys/sysmacros.h>`. -/
def minor (dev : Nat) : Nat :=
  (((dev &&& 0x00000000000000ff) >>> 0) ||| ((dev &&& 0x00000ffffff00000) >>> 12)) % 2 ^ 32

/-! ## Calls, dispositions and the world -/

/-- The two signal dispositions that occur in the program: the platform
default, and the function `handle_signal` of `init.c`. -/
inductive Handler where
  | SIG_DFL
  | handle_signal
  deriving DecidableEq

/-- One library call issued by the program, with its arguments.  A C string
argument that may be `NULL` is an `Option String`. -/
inductive Call where
  | signal (signum : Int) (handler : Handler)
  | mount (source target filesystemtype : Option String) (mountflags : Nat)
      (data : Option String)
  | access (pathname : String) (mode : Nat)
  | mknod (pathname : String) (mode : Nat) (dev : Nat)
  | system (command : String)
  | pause
  | sync
  | reboot (cmd : Nat)
  deriving DecidableEq

/-- Where the process is. -/
inductive Status where
  /-- executing statements of `main` or of the signal handler -/
  | running
  /-- inside `pause()`, waiting for a signal -/
  | blocked
  /-- `reboot(LINUX_REBOOT_CMD_RESTART)` was accepted: the call does not
  return and the machine restarts -/
  | restarting
  /-- `main` executed its `return` statement with this value -/
  | exited (code : Int)
  deriving DecidableEq

/-- The state threaded through the program. -/
structure World where
  /-- the result the operating system gives to the last call of a history -/
  kernel : List Call → Int
  /-- the calls issued so far, oldest first -/
  trace : List Call
  /-- handlers installed with `signal`, most recent first -/
  disposition : List (Int × Handler)
  status : Status

/-- The world in which `main` starts: nothing called, every signal at its
default disposition. -/
def World.boot (kernel : List Call → Int) : World :=
  { kernel := kernel, trace := [], disposition := [], status := .running }

/-- Issue a call: it is recorded, and the kernel answers it. -/
def World.call (w : World) (c : Call) : Int × World :=
  let t := w.trace ++ [c]
  (w.kernel t, { w with trace := t })

/-- The disposition currently in force for a signal. -/
def World.handler (w : World) (sig : Int) : Handler :=
  match w.disposition.lookup sig with
  | some h => h
  | none => .SIG_DFL

/-! ## The library functions used by `init.c` -/

/-- The call `signal(signum, handler)`: for a signal that can be caught
(1..64 other than `SIGKILL` = 9 and `SIGSTOP` = 19) the handler is installed
and stays installed across deliveries (BSD semantics, which `_GNU_SOURCE`
selects). -/
def signal (signum : Int) (handler : Handler) (w : World) : Int × World :=
  let (r, w) := w.call (.signal signum handler)
  if 1 ≤ signum ∧ signum ≤ 64 ∧ signum ≠ 9 ∧ signum ≠ 19 then
    (r, { w with disposition := (signum, handler) :: w.disposition })
  else (r, w)

/-- The call `mount(source, target, filesystemtype, mountflags, data)`. -/
def mount (source target filesystemtype : Option String) (mountflags : Nat)
    (data : Option String) (w : World) : Int × World :=
  w.call (.mount source target filesystemtype mountflags data)

/-- The call `access(pathname, mode)`. -/
def access (pathname : String) (mode : Nat) (w : World) : Int × World :=
  w.call (.access pathname mode)

/-- The call `mknod(pathname, mode, dev)`. -/
def mknod (pathname : String) (mode dev : Nat) (w : World) : Int × World :=
  w.call (.mknod pathname mode dev)

/-- The call `system(command)`. -/
def system (command : String) (w : World) : Int × World :=
  w.call (.system command)

/-- The call `sync()`; it returns nothing. -/
def sync (w : World) : World :=
  (w.call .sync).2

/-- The call `reboot(cmd)`.  An accepted restart request (result 0) does not
return: the machine restarts.  A refused request returns to the caller. -/
def reboot (cmd : Nat) (w : World) : Int × World :=
  let (r, w) := w.call (.reboot cmd)
  if r = 0 ∧ cmd = LINUX_REBOOT_CMD_RESTART then (r, { w with status := .restarting })
  else (r, w)

/-- The call `pause()`: the process blocks until a signal is caught. -/
def pause (w : World) : World :=
  { (w.call .pause).2 with status := .blocked }

/-! ## `init.c` -/

/-- One row of the table `mount_points` (the anonymous struct of `init.c`). -/
structure MountPoint where
  source : Option String
  target : Option String
  type : Option String
  flags : Nat
  deriving DecidableEq

/-- The table `mount_points[]` of `init.c`, sentinel row included. -/
def mount_points : Array MountPoint :=
  #[ { source := some "proc", target := some "/proc", type := some "proc",
       flags := MS_NOSUID ||| MS_NOEXEC ||| MS_NODEV },
     { source := some "sysfs", target := some "/sys", type := some "sysfs",
       flags := MS_NOSUID ||| MS_NOEXEC ||| MS_NODEV },
     { source := some "devtmpfs", target := some "/dev", type := some "devtmpfs",
       flags := MS_NOSUID },
     { source := none, target := none, type := none, flags := 0 } ]

/-- The loop of `setup_mounts`, entered with index `i`:
`for (...; mount_points[i].source != NULL; i++) mount(...)`.
A read outside the array is undefined behaviour and gives `none`; otherwise
the result is the index at which the loop was left, and the world. -/
def setup_mounts_loop (i : Nat) (w : World) : Option (Nat × World) :=
  if h : i < mount_points.size then
    let e := mount_points[i]
    match e.source with
    | none => some (i, w)
    | some _ =>
      setup_mounts_loop (i + 1) (mount e.source e.target e.type e.flags none w).2
  else none
termination_by mount_points.size - i

/-- The function `setup_mounts` of `init.c`. -/
def setup_mounts (w : World) : Option World :=
  (setup_mounts_loop 0 w).map Prod.snd

/-- The function `handle_signal` of `init.c`. -/
def handle_signal (sig : Int) (w : World) : World :=
  if sig = SIGTERM then
    let w := sync w
    (reboot LINUX_REBOOT_CMD_RESTART w).2
  else w

/-- The loop `while (1) { pause(); }` of `main`, from the moment the process
is blocked inside a `pause()` call; `sigs` are the signals sent to the process
from then on, in order.

* A signal whose disposition is the default is not delivered: the program is
  process 1, and Linux only delivers to process 1 the signals for which it
  has installed a handler.  `pause()` stays blocked.
* A signal with a handler runs the handler.  If the handler returns,
  `pause()` returns -1, the loop condition `1` holds and `pause()` is called
  again.  If the handler does not return (the restart was accepted) nothing
  further happens.
* With no signal left the process stays blocked. -/
def idle : World → List Int → World
  | w, [] => w
  | w, sig :: sigs =>
    match w.handler sig with
    | .SIG_DFL => idle w sigs
    | .handle_signal =>
      let w := handle_signal sig { w with status := .running }
      match w.status with
      | .restarting => w
      | _ => idle (pause w) sigs

/-- The function `main` of `init.c`, run against a kernel and the signals
sent to the process once it idles.  The statement `return 0;` after the
`while (1)` loop has no path leading to it. -/
def main (kernel : List Call → Int) (sigs : List Int) : Option World := do
  let w := World.boot kernel
  let w := (signal SIGTERM .handle_signal w).2
  let w ← setup_mounts w
  let (r, w) := access "/dev/console" F_OK w
  let w := if r ≠ 0 then (mknod "/dev/console" (S_IFCHR ||| 0o600) (makedev 5 1) w).2 else w
  let w := (system "/etc/network/setup.sh" w).2
  pure (idle (pause w) sigs)

/-! ## Vocabulary for the statements -/

/-- The calls `main` has issued once it has made the console check. -/
def upToCheck : List Call :=
  [.signal SIGTERM .handle_signal,
   .mount (some "proc") (some "/proc") (some "proc") (MS_NOSUID ||| MS_NOEXEC ||| MS_NODEV) none,
   .mount (some "sysfs") (some "/sys") (some "sysfs") (MS_NOSUID ||| MS_NOEXEC ||| MS_NODEV) none,
   .mount (some "devtmpfs") (some "/dev") (some "devtmpfs") MS_NOSUID none,
   .access "/dev/console" F_OK]

/-- The calls `main` has issued once it blocks in `pause()` for the first
time, for a kernel `k`. -/
def upToIdle (k : List Call → Int) : List Call :=
  upToCheck ++
    (if k upToCheck ≠ 0 then [.mknod "/dev/console" (S_IFCHR ||| 0o600) (makedev 5 1)] else []) ++
    [.system "/etc/network/setup.sh", .pause]

/-- The only handler installed is `handle_signal`, for `SIGTERM`. -/
def Armed (w : World) : Prop :=
  w.disposition = [(SIGTERM, Handler.handle_signal)]

/-- Every `reboot` call of a trace carries the restart command and comes
directly after a `sync` call. -/
def RebootAfterSync (t : List Call) : Prop :=
  ∀ i c, t[i]? = some (Call.reboot c) →
    c = LINUX_REBOOT_CMD_RESTART ∧ ∃ j, i = j + 1 ∧ t[j]? = some Call.sync

/-- Two worlds that show the same trace, dispositions and status. -/
def Same (w v : World) : Prop :=
  w.trace = v.trace ∧ w.disposition = v.disposition ∧ w.status = v.status

/-- What an observer sees of a run of `main`: the calls issued, and where
the process is. -/
def run (kernel : List Call → Int) (sigs : List Int) : Option (List Call × Status) :=
  (main kernel sigs).map fun w => (w.trace, w.status)

/-- The world in which `main` first blocks in `pause()`. -/
def atIdle (k : List Call → Int) : World :=
  { kernel := k, trace := upToIdle k, disposition := [(SIGTERM, .handle_signal)],
    status := .blocked }

/-! ## Lemmas -/

theorem setup_mounts_loop_zero (w : World) :
    setup_mounts_loop 0 w = some (3, { w with trace := w.trace ++
      [.mount (some "proc") (some "/proc") (some "proc") (MS_NOSUID ||| MS_NOEXEC ||| MS_NODEV) none,
       .mount (some "sysfs") (some "/sys") (some "sysfs") (MS_NOSUID ||| MS_NOEXEC ||| MS_NODEV) none,
       .mount (some "devtmpfs") (some "/dev") (some "devtmpfs") MS_NOSUID none] }) := by
  simp [setup_mounts_loop, mount_points, mount, World.call]

theorem setup_mounts_eq (w : World) :
    setup_mounts w = some { w with trace := w.trace ++
      [.mount (some "proc") (some "/proc") (some "proc") (MS_NOSUID ||| MS_NOEXEC ||| MS_NODEV) none,
       .mount (some "sysfs") (some "/sys") (some "sysfs") (MS_NOSUID ||| MS_NOEXEC ||| MS_NODEV) none,
       .mount (some "devtmpfs") (some "/dev") (some "devtmpfs") MS_NOSUID none] } := by
  simp [setup_mounts, setup_mounts_loop_zero]

theorem main_eq (k : List Call → Int) (sigs : List Int) :
    main k sigs = some (idle
      { kernel := k, trace := upToIdle k, disposition := [(SIGTERM, .handle_signal)],
        status := .blocked } sigs) := by
  by_cases h : k upToCheck = 0
  · simp [main, setup_mounts_eq, signal, access, mknod, system, pause, World.call, World.boot,
      upToIdle, SIGTERM, h]
    simp [upToCheck, SIGTERM] at h
    simp [h]
    rfl
  · simp [main, setup_mounts_eq, signal, access, mknod, system, pause, World.call, World.boot,
      upToIdle, SIGTERM, h]
    simp [upToCheck, SIGTERM] at h
    simp [h]
    rfl

theorem idle_cons_other (w : World) (hw : Armed w) (sig : Int) (hsig : sig ≠ SIGTERM)
    (sigs : List Int) : idle w (sig :: sigs) = idle w sigs := by
  have hd : w.disposition = [(SIGTERM, Handler.handle_signal)] := hw
  have hb : (sig == SIGTERM) = false := by simpa using hsig
  have h : w.handler sig = .SIG_DFL := by
    simp [World.handler, hd, List.lookup, hb]
  simp [idle, h]

theorem idle_cons_term_refused (w : World) (hw : Armed w) (sigs : List Int)
    (hk : w.kernel (w.trace ++ [.sync, .reboot LINUX_REBOOT_CMD_RESTART]) ≠ 0) :
    idle w (SIGTERM :: sigs) =
      idle { w with trace := w.trace ++ [.sync, .reboot LINUX_REBOOT_CMD_RESTART, .pause],
                    status := .blocked } sigs := by
  have hd : w.disposition = [(SIGTERM, Handler.handle_signal)] := hw
  have h : w.handler SIGTERM = .handle_signal := by
    simp [World.handler, hd, List.lookup]
  simp [idle, h, handle_signal, sync, reboot, World.call, pause, hk]

theorem idle_cons_term_accepted (w : World) (hw : Armed w) (sigs : List Int)
    (hk : w.kernel (w.trace ++ [.sync, .reboot LINUX_REBOOT_CMD_RESTART]) = 0) :
    idle w (SIGTERM :: sigs) =
      { w with trace := w.trace ++ [.sync, .reboot LINUX_REBOOT_CMD_RESTART],
               status := .restarting } := by
  have hd : w.disposition = [(SIGTERM, Handler.handle_signal)] := hw
  have h : w.handler SIGTERM = .handle_signal := by
    simp [World.handler, hd, List.lookup]
  simp [idle, h, handle_signal, sync, reboot, World.call, pause, hk]

theorem rebootAfterSync_handler (t : List Call) (h : RebootAfterSync t) :
    RebootAfterSync (t ++ [.sync, .reboot LINUX_REBOOT_CMD_RESTART]) := by
  intro i c hi
  rw [List.getElem?_append] at hi
  split at hi
  · next hlt =>
    obtain ⟨hc, j, hj, hjs⟩ := h i c hi
    refine ⟨hc, j, hj, ?_⟩
    rw [List.getElem?_append_left (by omega)]
    exact hjs
  · next hge =>
    have hge : t.length ≤ i := by omega
    obtain ⟨d, rfl⟩ : ∃ d, i = t.length + d := ⟨i - t.length, by omega⟩
    simp only [Nat.add_sub_cancel_left] at hi
    match d, hi with
    | 1, hi =>
      simp at hi
      refine ⟨hi.symm, t.length, rfl, ?_⟩
      rw [List.getElem?_append_right (le_refl _)]
      simp

theorem rebootAfterSync_pause (t : List Call) (h : RebootAfterSync t) :
    RebootAfterSync (t ++ [.pause]) := by
  intro i c hi
  rw [List.getElem?_append] at hi
  split at hi
  · next hlt =>
    obtain ⟨hc, j, hj, hjs⟩ := h i c hi
    refine ⟨hc, j, hj, ?_⟩
    rw [List.getElem?_append_left (by omega)]
    exact hjs
  · next hge =>
    obtain ⟨d, rfl⟩ : ∃ d, i = t.length + d := ⟨i - t.length, by omega⟩
    simp only [Nat.add_sub_cancel_left] at hi
    match d, hi with
    | 0, hi => simp at hi

/-- What a run of the idle loop guarantees, for any armed world. -/
theorem idle_spec (sigs : List Int) : ∀ w : World, Armed w →
    Armed (idle w sigs) ∧ (idle w sigs).kernel = w.kernel ∧
    (w.status = .blocked →
      (idle w sigs).status = .blocked ∨ (idle w sigs).status = .restarting) ∧
    (RebootAfterSync w.trace → RebootAfterSync (idle w sigs).trace) ∧
    ∃ ext, (idle w sigs).trace = w.trace ++ ext ∧
      ext.count .sync = ext.count (.reboot LINUX_REBOOT_CMD_RESTART) ∧
      ∀ c ∈ ext, c = .sync ∨ c = .reboot LINUX_REBOOT_CMD_RESTART ∨ c = .pause := by
  induction sigs with
  | nil =>
    intro w hw
    exact ⟨hw, rfl, fun h => Or.inl h, fun h => h, [], by simp [idle], by simp, by simp⟩
  | cons sig sigs ih =>
    intro w hw
    by_cases hs : sig = SIGTERM
    · subst hs
      by_cases hk : w.kernel (w.trace ++ [.sync, .reboot LINUX_REBOOT_CMD_RESTART]) = 0
      · rw [idle_cons_term_accepted w hw sigs hk]
        refine ⟨hw, rfl, fun _ => Or.inr rfl, fun h => rebootAfterSync_handler _ h,
          [.sync, .reboot LINUX_REBOOT_CMD_RESTART], rfl, by decide, by simp⟩
      · rw [idle_cons_term_refused w hw sigs hk]
        obtain ⟨h1, h2, h3, h4, ext, h5, h6, h7⟩ := ih
          { w with trace := w.trace ++ [.sync, .reboot LINUX_REBOOT_CMD_RESTART, .pause],
                   status := .blocked } hw
        refine ⟨h1, h2, fun _ => h3 rfl, fun h => h4 ?_,
          [.sync, .reboot LINUX_REBOOT_CMD_RESTART, .pause] ++ ext, ?_, ?_, ?_⟩
        · have := rebootAfterSync_pause _ (rebootAfterSync_handler _ h)
          simpa using this
        · rw [h5]; simp
        · rw [List.count_append, List.count_append, h6]
          have e1 : [Call.sync, .reboot LINUX_REBOOT_CMD_RESTART, .pause].count .sync = 1 := by
            decide
          have e2 : [Call.sync, .reboot LINUX_REBOOT_CMD_RESTART, .pause].count
              (.reboot LINUX_REBOOT_CMD_RESTART) = 1 := by decide
          rw [e1, e2]
        · intro c hc
          rcases List.mem_append.1 hc with hc | hc
          · simp at hc
            tauto
          · exact h7 c hc
    · rw [idle_cons_other w hw sig hs sigs]
      exact ih w hw

/-- A signal other than `SIGTERM` can be removed from the signals sent to
an armed idle loop without changing the outcome. -/
theorem idle_insert (sig : Int) (hsig : sig ≠ SIGTERM) (s2 : List Int) (s1 : List Int) :
    ∀ w : World, Armed w → idle w (s1 ++ sig :: s2) = idle w (s1 ++ s2) := by
  induction s1 with
  | nil =>
    intro w hw
    exact idle_cons_other w hw sig hsig s2
  | cons a s1 ih =>
    intro w hw
    by_cases hs : a = SIGTERM
    · subst hs
      by_cases hk : w.kernel (w.trace ++ [.sync, .reboot LINUX_REBOOT_CMD_RESTART]) = 0
      · simp only [List.cons_append]
        rw [idle_cons_term_accepted w hw _ hk, idle_cons_term_accepted w hw _ hk]
      · simp only [List.cons_append]
        rw [idle_cons_term_refused w hw _ hk, idle_cons_term_refused w hw _ hk]
        exact ih _ hw
    · simp only [List.cons_append]
      rw [idle_cons_other w hw a hs, idle_cons_other w hw a hs]
      exact ih w hw

/-- Signals sent to a process that is still blocked continue the run. -/
theorem idle_append (s2 : List Int) (s1 : List Int) :
    ∀ w : World, Armed w → w.status = .blocked → (idle w s1).status = .blocked →
      idle w (s1 ++ s2) = idle (idle w s1) s2 := by
  induction s1 with
  | nil =>
    intro w _ _ _
    rfl
  | cons a s1 ih =>
    intro w hw hb hst
    by_cases hs : a = SIGTERM
    · subst hs
      by_cases hk : w.kernel (w.trace ++ [.sync, .reboot LINUX_REBOOT_CMD_RESTART]) = 0
      · rw [idle_cons_term_accepted w hw _ hk] at hst
        simp at hst
      · simp only [List.cons_append]
        rw [idle_cons_term_refused w hw _ hk] at hst ⊢
        rw [idle_cons_term_refused w hw _ hk]
        exact ih _ hw rfl hst
    · simp only [List.cons_append]
      rw [idle_cons_other w hw a hs] at hst ⊢
      rw [idle_cons_other w hw a hs]
      exact ih w hw hb hst

/-- With a kernel that refuses every restart request, each `SIGTERM` adds
one round `sync`, `reboot`, `pause`, and the process is blocked again. -/
theorem idle_refused (sigs : List Int) : ∀ w : World, Armed w → w.status = .blocked →
    (∀ t, w.kernel (t ++ [.reboot LINUX_REBOOT_CMD_RESTART]) ≠ 0) →
    idle w sigs =
      { w with trace := w.trace ++ (List.replicate (sigs.count SIGTERM)
                 [Call.sync, .reboot LINUX_REBOOT_CMD_RESTART, .pause]).flatten,
               status := .blocked } := by
  induction sigs with
  | nil =>
    intro w _ hb _
    cases w
    simp at hb
    simp [idle, hb]
  | cons a sigs ih =>
    intro w hw hb hk
    by_cases hs : a = SIGTERM
    · subst hs
      have hk1 : w.kernel (w.trace ++ [.sync, .reboot LINUX_REBOOT_CMD_RESTART]) ≠ 0 := by
        have := hk (w.trace ++ [.sync])
        simpa using this
      rw [idle_cons_term_refused w hw _ hk1]
      rw [ih { w with trace := w.trace ++ [.sync, .reboot LINUX_REBOOT_CMD_RESTART, .pause],
                      status := .blocked } hw rfl hk]
      simp [List.replicate_succ]
    · rw [idle_cons_other w hw a hs, ih w hw hb hk]
      have : (a == SIGTERM) = false := by simpa using hs
      simp [List.count_cons, this]

/-- The idle loop consults the kernel only for the result of `reboot`. -/
theorem idle_congr (sigs : List Int) : ∀ w v : World, Armed w → Same w v →
    (∀ t c, w.kernel (t ++ [.reboot c]) = v.kernel (t ++ [.reboot c])) →
    Same (idle w sigs) (idle v sigs) := by
  induction sigs with
  | nil =>
    intro w v _ h _
    exact h
  | cons a sigs ih =>
    intro w v hw h hk
    have hv : Armed v := by
      unfold Armed at hw ⊢
      rw [← h.2.1]; exact hw
    by_cases hs : a = SIGTERM
    · subst hs
      have e : v.kernel (v.trace ++ [.sync, .reboot LINUX_REBOOT_CMD_RESTART]) =
          w.kernel (w.trace ++ [.sync, .reboot LINUX_REBOOT_CMD_RESTART]) := by
        have := hk (w.trace ++ [.sync]) LINUX_REBOOT_CMD_RESTART
        rw [← h.1]
        simpa using this.symm
      by_cases hk0 : w.kernel (w.trace ++ [.sync, .reboot LINUX_REBOOT_CMD_RESTART]) = 0
      · rw [idle_cons_term_accepted w hw _ hk0, idle_cons_term_accepted v hv _ (e.trans hk0)]
        exact ⟨by simp [h.1], h.2.1, rfl⟩
      · rw [idle_cons_term_refused w hw _ hk0,
          idle_cons_term_refused v hv _ (by rw [e]; exact hk0)]
        exact ih _ _ hw ⟨by simp [h.1], h.2.1, rfl⟩ hk
    · rw [idle_cons_other w hw a hs, idle_cons_other v hv a hs]
      exact ih w v hw h hk

/-- The run of `main` consults the kernel only for the results of `access`
and `reboot`. -/
theorem main_congr (k k2 : List Call → Int) (sigs : List Int)
    (hacc : ∀ t p m, k (t ++ [.access p m]) = k2 (t ++ [.access p m]))
    (hreb : ∀ t c, k (t ++ [.reboot c]) = k2 (t ++ [.reboot c])) :
    ∃ w v, main k sigs = some w ∧ main k2 sigs = some v ∧ Same w v := by
  refine ⟨_, _, main_eq k sigs, main_eq k2 sigs, ?_⟩
  apply idle_congr
  · rfl
  · have e : k upToCheck = k2 upToCheck :=
      hacc [.signal SIGTERM .handle_signal,
        .mount (some "proc") (some "/proc") (some "proc") (MS_NOSUID ||| MS_NOEXEC ||| MS_NODEV) none,
        .mount (some "sysfs") (some "/sys") (some "sysfs") (MS_NOSUID ||| MS_NOEXEC ||| MS_NODEV) none,
        .mount (some "devtmpfs") (some "/dev") (some "devtmpfs") MS_NOSUID none]
        "/dev/console" F_OK
    exact ⟨by simp [upToIdle, e], rfl, rfl⟩
  · exact hreb

theorem main_eq_atIdle (k : List Call → Int) (sigs : List Int) :
    main k sigs = some (idle (atIdle k) sigs) :=
  main_eq k sigs

theorem run_eq (k : List Call → Int) (sigs : List Int) :
    run k sigs = some ((idle (atIdle k) sigs).trace, (idle (atIdle k) sigs).status) := by
  simp [run, main_eq_atIdle]

theorem atIdle_armed (k : List Call → Int) : Armed (atIdle k) := rfl

theorem upToIdle_present (k : List Call → Int) (h : k upToCheck = 0) :
    upToIdle k = upToCheck ++ [.system "/etc/network/setup.sh", .pause] := by
  simp [upToIdle, h]

theorem upToIdle_absent (k : List Call → Int) (h : k upToCheck ≠ 0) :
    upToIdle k = upToCheck ++ [.mknod "/dev/console" (S_IFCHR ||| 0o600) (makedev 5 1),
      .system "/etc/network/setup.sh", .pause] := by
  simp [upToIdle, h]

theorem upToIdle_no_reboot (k : List Call → Int) :
    ∀ c ∈ upToIdle k, c ≠ .sync ∧ ∀ cmd, c ≠ .reboot cmd := by
  intro c hc
  by_cases h : k upToCheck = 0
  · rw [upToIdle_present k h] at hc
    simp [upToCheck] at hc
    rcases hc with rfl | rfl | rfl | rfl | rfl | rfl | rfl <;> simp
  · rw [upToIdle_absent k h] at hc
    simp [upToCheck] at hc
    rcases hc with rfl | rfl | rfl | rfl | rfl | rfl | rfl | rfl <;> simp

theorem upToIdle_rebootAfterSync (k : List Call → Int) : RebootAfterSync (upToIdle k) := by
  intro i c hi
  have hm : Call.reboot c ∈ upToIdle k := List.getElem?_mem hi
  exact absurd rfl ((upToIdle_no_reboot k _ hm).2 c)

/-! ## The claims -/

/-- Claim C1.  Whatever results the kernel gives to the mount calls,
`setup_mounts` issues exactly the three mount calls of the table, in the
declared order, with the flags of the table and a `NULL` data argument, and
changes nothing else. -/
theorem C1_setup_mounts_calls (kernel : List Call → Int) (t : List Call)
    (d : List (Int × Handler)) (s : Status) :
    setup_mounts { kernel := kernel, trace := t, disposition := d, status := s } =
      some { kernel := kernel, disposition := d, status := s, trace := t ++
        [.mount (some "proc") (some "/proc") (some "proc")
           (MS_NOSUID ||| MS_NOEXEC ||| MS_NODEV) none,
         .mount (some "sysfs") (some "/sys") (some "sysfs")
           (MS_NOSUID ||| MS_NOEXEC ||| MS_NODEV) none,
         .mount (some "devtmpfs") (some "/dev") (some "devtmpfs") MS_NOSUID none] } :=
  setup_mounts_eq _

/-- Claim C10.  The table has four rows, the first row with a `NULL` source
is row 3, and the loop of `setup_mounts` started at index 0 never reads
outside the table, leaves at index 3 after three iterations, each of which
issued one mount call whose source, target and type are not `NULL`.  A loop
entered beyond the table would read outside it. -/
theorem C10_setup_mounts_loop_safe (w : World) :
    mount_points.size = 4 ∧
    (mount_points[3]?).map (fun e => e.source) = some none ∧
    (∀ i, i < 3 → ∃ e src, mount_points[i]? = some e ∧ e.source = some src) ∧
    (∃ v calls, setup_mounts_loop 0 w = some (3, v) ∧ v.trace = w.trace ++ calls ∧
      calls.length = 3 ∧
      ∀ c ∈ calls, ∃ src tgt ty fl, c = Call.mount (some src) (some tgt) (some ty) fl none) ∧
    (∀ i, mount_points.size ≤ i → setup_mounts_loop i w = none) := by
  refine ⟨rfl, by simp [mount_points], ?_, ?_, ?_⟩
  · intro i hi
    interval_cases i <;> simp [mount_points]
  · refine ⟨_, _, setup_mounts_loop_zero w, rfl, rfl, ?_⟩
    intro c hc
    simp at hc
    rcases hc with rfl | rfl | rfl <;> simp
  · intro i hi
    rw [setup_mounts_loop]
    simp [Nat.not_lt.2 hi]

/-- Claim C2.  When the console check does not return 0 (the node is
absent), `main` issues, directly after the check, one
`mknod("/dev/console", S_IFCHR | 0600, makedev(5, 1))` and no other `mknod`
in the whole run; the mode has type bits `S_IFCHR` and permission bits 0600,
and the device number decodes to major 5, minor 1. -/
theorem C2_console_absent (kernel : List Call → Int) (sigs : List Int)
    (habsent : kernel
      [.signal SIGTERM .handle_signal,
       .mount (some "proc") (some "/proc") (some "proc")
         (MS_NOSUID ||| MS_NOEXEC ||| MS_NODEV) none,
       .mount (some "sysfs") (some "/sys") (some "sysfs")
         (MS_NOSUID ||| MS_NOEXEC ||| MS_NODEV) none,
       .mount (some "devtmpfs") (some "/dev") (some "devtmpfs") MS_NOSUID none,
       .access "/dev/console" F_OK] ≠ 0) :
    (∃ rest s, run kernel sigs = some (
      [.signal SIGTERM .handle_signal,
       .mount (some "proc") (some "/proc") (some "proc")
         (MS_NOSUID ||| MS_NOEXEC ||| MS_NODEV) none,
       .mount (some "sysfs") (some "/sys") (some "sysfs")
         (MS_NOSUID ||| MS_NOEXEC ||| MS_NODEV) none,
       .mount (some "devtmpfs") (some "/dev") (some "devtmpfs") MS_NOSUID none,
       .access "/dev/console" F_OK,
       .mknod "/dev/console" (S_IFCHR ||| 0o600) (makedev 5 1)] ++ rest, s) ∧
      ∀ p m d, Call.mknod p m d ∉ rest) ∧
    (S_IFCHR ||| 0o600) &&& S_IFMT = S_IFCHR ∧
    (S_IFCHR ||| 0o600) &&& 0o7777 = 0o600 ∧
    major (makedev 5 1) = 5 ∧ minor (makedev 5 1) = 1 := by
  refine ⟨?_, by decide, by decide, by decide, by decide⟩
  obtain ⟨_, _, _, _, ext, he, _, hext⟩ := idle_spec sigs (atIdle kernel) (atIdle_armed kernel)
  refine ⟨[.system "/etc/network/setup.sh", .pause] ++ ext,
    (idle (atIdle kernel) sigs).status, ?_, ?_⟩
  · rw [run_eq, he]
    have : (atIdle kernel).trace = upToIdle kernel := rfl
    rw [this, upToIdle_absent kernel habsent]
    simp [upToCheck]
  · intro p m d hm
    rcases List.mem_append.1 hm with hm | hm
    · simp at hm
    · rcases hext _ hm with h | h | h <;> simp at h

/-- Witness of C2 : a kernel under which every call fails. -/
theorem C2_console_absent_witness :
    (∃ rest s, run (fun _ => -1) [] = some (
      [.signal SIGTERM .handle_signal,
       .mount (some "proc") (some "/proc") (some "proc")
         (MS_NOSUID ||| MS_NOEXEC ||| MS_NODEV) none,
       .mount (some "sysfs") (some "/sys") (some "sysfs")
         (MS_NOSUID ||| MS_NOEXEC ||| MS_NODEV) none,
       .mount (some "devtmpfs") (some "/dev") (some "devtmpfs") MS_NOSUID none,
       .access "/dev/console" F_OK,
       .mknod "/dev/console" (S_IFCHR ||| 0o600) (makedev 5 1)] ++ rest, s) ∧
      ∀ p m d, Call.mknod p m d ∉ rest) ∧
    (S_IFCHR ||| 0o600) &&& S_IFMT = S_IFCHR ∧
    (S_IFCHR ||| 0o600) &&& 0o7777 = 0o600 ∧
    major (makedev 5 1) = 5 ∧ minor (makedev 5 1) = 1 :=
  C2_console_absent (fun _ => -1) [] (by decide)

/-- Claim C3.  When the console check returns 0 (the node is present,
whatever it is), `main` issues no `mknod` in the whole run: the call after
the check is the network script, and after that only `pause`, `sync` and
`reboot` occur, none of which touches the node. -/
theorem C3_console_present (kernel : List Call → Int) (sigs : List Int)
    (hpresent : kernel
      [.signal SIGTERM .handle_signal,
       .mount (some "proc") (some "/proc") (some "proc")
         (MS_NOSUID ||| MS_NOEXEC ||| MS_NODEV) none,
       .mount (some "sysfs") (some "/sys") (some "sysfs")
         (MS_NOSUID ||| MS_NOEXEC ||| MS_NODEV) none,
       .mount (some "devtmpfs") (some "/dev") (some "devtmpfs") MS_NOSUID none,
       .access "/dev/console" F_OK] = 0) :
    ∃ t rest s, run kernel sigs = some (t, s) ∧
      t = [.signal SIGTERM .handle_signal,
       .mount (some "proc") (some "/proc") (some "proc")
         (MS_NOSUID ||| MS_NOEXEC ||| MS_NODEV) none,
       .mount (some "sysfs") (some "/sys") (some "sysfs")
         (MS_NOSUID ||| MS_NOEXEC ||| MS_NODEV) none,
       .mount (some "devtmpfs") (some "/dev") (some "devtmpfs") MS_NOSUID none,
       .access "/dev/console" F_OK,
       .system "/etc/network/setup.sh"] ++ rest ∧
      (∀ p m d, Call.mknod p m d ∉ t) ∧
      ∀ c ∈ rest, c = .pause ∨ c = .sync ∨ c = .reboot LINUX_REBOOT_CMD_RESTART := by
  obtain ⟨_, _, _, _, ext, he, _, hext⟩ := idle_spec sigs (atIdle kernel) (atIdle_armed kernel)
  have ht : (atIdle kernel).trace = upToIdle kernel := rfl
  have hrest : ∀ c ∈ Call.pause :: ext,
      c = .pause ∨ c = .sync ∨ c = .reboot LINUX_REBOOT_CMD_RESTART := by
    intro c hc
    rcases List.mem_cons.1 hc with h | h
    · exact Or.inl h
    · rcases hext c h with h | h | h
      · exact Or.inr (Or.inl h)
      · exact Or.inr (Or.inr h)
      · exact Or.inl h
  refine ⟨_, Call.pause :: ext, _, run_eq kernel sigs, ?_, ?_, hrest⟩
  · rw [he, ht, upToIdle_present kernel hpresent]
    simp [upToCheck]
  · intro p m d hm
    rw [he, ht, upToIdle_present kernel hpresent] at hm
    rcases List.mem_append.1 hm with hm | hm
    · simp [upToCheck] at hm
    · rcases hext _ hm with h | h | h <;> simp at h

/-- Witness of C3 : a kernel under which every call returns 0. -/
theorem C3_console_present_witness :
    ∃ t rest s, run (fun _ => 0) [SIGTERM] = some (t, s) ∧
      t = [.signal SIGTERM .handle_signal,
       .mount (some "proc") (some "/proc") (some "proc")
         (MS_NOSUID ||| MS_NOEXEC ||| MS_NODEV) none,
       .mount (some "sysfs") (some "/sys") (some "sysfs")
         (MS_NOSUID ||| MS_NOEXEC ||| MS_NODEV) none,
       .mount (some "devtmpfs") (some "/dev") (some "devtmpfs") MS_NOSUID none,
       .access "/dev/console" F_OK,
       .system "/etc/network/setup.sh"] ++ rest ∧
      (∀ p m d, Call.mknod p m d ∉ t) ∧
      ∀ c ∈ rest, c = .pause ∨ c = .sync ∨ c = .reboot LINUX_REBOOT_CMD_RESTART :=
  C3_console_present (fun _ => 0) [SIGTERM] rfl

/-- Claim C4.  If a run has left the process blocked in `pause()` with trace
`t`, sending `SIGTERM` adds exactly `sync` then `reboot(RESTART)`: the
process is restarting if the kernel accepts the request, and is back in
`pause()` if it refuses.  In every run the numbers of `sync` and of
`reboot(RESTART)` calls agree, every `reboot` call carries the restart
command, and every `reboot` call comes directly after a `sync` call. -/
theorem C4_sigterm_sync_then_restart (kernel : List Call → Int) (sigs : List Int)
    (t : List Call) (hidle : run kernel sigs = some (t, .blocked)) :
    run kernel (sigs ++ [SIGTERM]) =
      some (if kernel (t ++ [.sync, .reboot LINUX_REBOOT_CMD_RESTART]) = 0
        then (t ++ [.sync, .reboot LINUX_REBOOT_CMD_RESTART], .restarting)
        else (t ++ [.sync, .reboot LINUX_REBOOT_CMD_RESTART, .pause], .blocked)) ∧
    ∀ (k2 : List Call → Int) (sigs2 : List Int), ∃ t2 s2, run k2 sigs2 = some (t2, s2) ∧
      t2.count .sync = t2.count (.reboot LINUX_REBOOT_CMD_RESTART) ∧
      ∀ i c, t2[i]? = some (Call.reboot c) →
        c = LINUX_REBOOT_CMD_RESTART ∧ ∃ j, i = j + 1 ∧ t2[j]? = some Call.sync := by
  constructor
  · rw [run_eq] at hidle
    simp only [Option.some.injEq, Prod.mk.injEq] at hidle
    obtain ⟨ht, hs⟩ := hidle
    obtain ⟨harm, hker, _, _, _⟩ := idle_spec sigs (atIdle kernel) (atIdle_armed kernel)
    have hker2 : (idle (atIdle kernel) sigs).kernel = kernel := hker
    rw [run_eq, idle_append [SIGTERM] sigs (atIdle kernel) (atIdle_armed kernel) rfl hs]
    by_cases hk : kernel (t ++ [.sync, .reboot LINUX_REBOOT_CMD_RESTART]) = 0
    · rw [idle_cons_term_accepted _ harm [] (by rw [hker2, ht]; exact hk)]
      simp [hk, ht]
    · rw [idle_cons_term_refused _ harm [] (by rw [hker2, ht]; exact hk)]
      simp [hk, ht, idle]
  · intro k2 sigs2
    obtain ⟨_, _, _, hras, ext, he, hcount, _⟩ :=
      idle_spec sigs2 (atIdle k2) (atIdle_armed k2)
    refine ⟨_, _, run_eq k2 sigs2, ?_, hras (upToIdle_rebootAfterSync k2)⟩
    have ht : (atIdle k2).trace = upToIdle k2 := rfl
    rw [he, ht, List.count_append, List.count_append, hcount]
    have h1 : (upToIdle k2).count .sync = 0 :=
      List.count_eq_zero.2 fun hm => (upToIdle_no_reboot k2 _ hm).1 rfl
    have h2 : (upToIdle k2).count (.reboot LINUX_REBOOT_CMD_RESTART) = 0 :=
      List.count_eq_zero.2 fun hm => (upToIdle_no_reboot k2 _ hm).2 _ rfl
    rw [h1, h2]

/-- Witness of C4 : the node is absent, every call fails, and one `SIGTERM`
is sent to the idle process. -/
theorem C4_sigterm_sync_then_restart_witness :
    run (fun _ => -1) [] = some (
      [.signal SIGTERM .handle_signal,
       .mount (some "proc") (some "/proc") (some "proc")
         (MS_NOSUID ||| MS_NOEXEC ||| MS_NODEV) none,
       .mount (some "sysfs") (some "/sys") (some "sysfs")
         (MS_NOSUID ||| MS_NOEXEC ||| MS_NODEV) none,
       .mount (some "devtmpfs") (some "/dev") (some "devtmpfs") MS_NOSUID none,
       .access "/dev/console" F_OK,
       .mknod "/dev/console" (S_IFCHR ||| 0o600) (makedev 5 1),
       .system "/etc/network/setup.sh",
       .pause], .blocked) ∧
    run (fun _ => -1) ([] ++ [SIGTERM]) = some (
      [.signal SIGTERM .handle_signal,
       .mount (some "proc") (some "/proc") (some "proc")
         (MS_NOSUID ||| MS_NOEXEC ||| MS_NODEV) none,
       .mount (some "sysfs") (some "/sys") (some "sysfs")
         (MS_NOSUID ||| MS_NOEXEC ||| MS_NODEV) none,
       .mount (some "devtmpfs") (some "/dev") (some "devtmpfs") MS_NOSUID none,
       .access "/dev/console" F_OK,
       .mknod "/dev/console" (S_IFCHR ||| 0o600) (makedev 5 1),
       .system "/etc/network/setup.sh",
       .pause] ++ [.sync, .reboot LINUX_REBOOT_CMD_RESTART, .pause], .blocked) := by
  have h : run (fun _ => -1) [] = some (
      [.signal SIGTERM .handle_signal,
       .mount (some "proc") (some "/proc") (some "proc")
         (MS_NOSUID ||| MS_NOEXEC ||| MS_NODEV) none,
       .mount (some "sysfs") (some "/sys") (some "sysfs")
         (MS_NOSUID ||| MS_NOEXEC ||| MS_NODEV) none,
       .mount (some "devtmpfs") (some "/dev") (some "devtmpfs") MS_NOSUID none,
       .access "/dev/console" F_OK,
       .mknod "/dev/console" (S_IFCHR ||| 0o600) (makedev 5 1),
       .system "/etc/network/setup.sh",
       .pause], .blocked) := by
    simp [run, main, setup_mounts, setup_mounts_loop, mount_points, signal, mount, access,
      mknod, system, pause, idle, World.call, World.boot, SIGTERM]
  exact ⟨h, (C4_sigterm_sync_then_restart (fun _ => -1) [] _ h).1⟩

/-- Claim C5.  In every run `main` issues exactly one `system` call, with
the command `/etc/network/setup.sh` and nothing else in the command string,
and the next call is `pause`; the run ends blocked or restarting.  A kernel
that differs from `kernel` at most in the results of `system` calls gives
the same run. -/
theorem C5_network_script_once (kernel kernel2 : List Call → Int) (sigs : List Int)
    (hsame : ∀ t, (∀ cmd, t.getLast? ≠ some (Call.system cmd)) → kernel2 t = kernel t) :
    (∃ pre post s, run kernel sigs =
        some (pre ++ [.system "/etc/network/setup.sh", .pause] ++ post, s) ∧
      (∀ cmd, Call.system cmd ∉ pre) ∧ (∀ cmd, Call.system cmd ∉ post) ∧
      (s = .blocked ∨ s = .restarting)) ∧
    run kernel2 sigs = run kernel sigs := by
  constructor
  · obtain ⟨_, _, hst, _, ext, he, _, hext⟩ :=
      idle_spec sigs (atIdle kernel) (atIdle_armed kernel)
    have ht : (atIdle kernel).trace = upToIdle kernel := rfl
    have hpost : ∀ cmd, Call.system cmd ∉ ext := by
      intro cmd hm
      rcases hext _ hm with h | h | h <;> simp at h
    by_cases h : kernel upToCheck = 0
    · refine ⟨upToCheck, ext, _, ?_, ?_, hpost, hst rfl⟩
      · rw [run_eq, he, ht, upToIdle_present kernel h]
      · intro cmd hm
        simp [upToCheck] at hm
    · refine ⟨upToCheck ++ [.mknod "/dev/console" (S_IFCHR ||| 0o600) (makedev 5 1)], ext, _,
        ?_, ?_, hpost, hst rfl⟩
      · rw [run_eq, he, ht, upToIdle_absent kernel h]
        simp
      · intro cmd hm
        simp [upToCheck] at hm
  · obtain ⟨w, v, hw, hv, htr, _, hst⟩ := main_congr kernel2 kernel sigs
      (fun t p m => hsame _ (by simp)) (fun t c => hsame _ (by simp))
    simp [run, hw, hv, htr, hst]

/-- Witness of C5 : the script succeeds under one kernel and fails under
the other. -/
theorem C5_network_script_once_witness :
    (∃ pre post s, run (fun _ => 0) [SIGINT] =
        some (pre ++ [.system "/etc/network/setup.sh", .pause] ++ post, s) ∧
      (∀ cmd, Call.system cmd ∉ pre) ∧ (∀ cmd, Call.system cmd ∉ post) ∧
      (s = .blocked ∨ s = .restarting)) ∧
    run (fun t => match t.getLast? with
      | some (.system _) => 127
      | _ => 0) [SIGINT] = run (fun _ => 0) [SIGINT] :=
  C5_network_script_once (fun _ => 0)
    (fun t => match t.getLast? with
      | some (.system _) => 127
      | _ => 0) [SIGINT]
    (by
      intro t h
      beta_reduce
      split
      · next cmd heq => exact absurd heq (h cmd)
      · rfl)

/-- Claim C6.  A signal other than `SIGTERM` sent to the idle process
changes nothing: the run with the signal is the run without it (same calls,
same dispositions, same status), a process that was blocked is still
blocked, and `handle_signal` itself does nothing for such a signal. -/
theorem C6_other_signals_ignored (kernel : List Call → Int) (s1 s2 : List Int) (sig : Int)
    (hsig : sig ≠ SIGTERM) :
    main kernel (s1 ++ sig :: s2) = main kernel (s1 ++ s2) ∧
    (∀ t, run kernel s1 = some (t, .blocked) → run kernel (s1 ++ [sig]) = some (t, .blocked)) ∧
    ∀ w : World, handle_signal sig w = w := by
  have h : ∀ s2, main kernel (s1 ++ sig :: s2) = main kernel (s1 ++ s2) := by
    intro s2
    rw [main_eq_atIdle, main_eq_atIdle,
      idle_insert sig hsig s2 s1 (atIdle kernel) (atIdle_armed kernel)]
  refine ⟨h s2, ?_, ?_⟩
  · intro t ht
    have := h []
    simp only [List.append_nil] at this
    rw [run, this]
    exact ht
  · intro w
    simp [handle_signal, hsig]

/-- Witness of C6 : `SIGINT` sent between two `SIGTERM`. -/
theorem C6_other_signals_ignored_witness :
    SIGINT ≠ SIGTERM ∧
    (main (fun _ => -1) ([SIGTERM] ++ SIGINT :: [SIGTERM]) =
      main (fun _ => -1) ([SIGTERM] ++ [SIGTERM]) ∧
    (∀ t, run (fun _ => -1) [SIGTERM] = some (t, .blocked) →
      run (fun _ => -1) ([SIGTERM] ++ [SIGINT]) = some (t, .blocked)) ∧
    ∀ w : World, handle_signal SIGINT w = w) :=
  ⟨by decide, C6_other_signals_ignored (fun _ => -1) [SIGTERM] [SIGTERM] SIGINT (by decide)⟩

/-- Claim C7.  Every run of `main` starts with the installation of the
`SIGTERM` handler, then the three mounts in table order, the console check,
the node creation exactly when the check did not return 0, the network
script and the first `pause`; the handler is then in force.  If `SIGTERM` is
the first signal sent to the idle process, `sync` and `reboot(RESTART)` come
next. -/
theorem C7_phase_order (kernel : List Call → Int) (sigs : List Int) :
    (∃ w rest, main kernel sigs = some w ∧ w.handler SIGTERM = .handle_signal ∧
      w.trace =
        [.signal SIGTERM .handle_signal,
         .mount (some "proc") (some "/proc") (some "proc")
           (MS_NOSUID ||| MS_NOEXEC ||| MS_NODEV) none,
         .mount (some "sysfs") (some "/sys") (some "sysfs")
           (MS_NOSUID ||| MS_NOEXEC ||| MS_NODEV) none,
         .mount (some "devtmpfs") (some "/dev") (some "devtmpfs") MS_NOSUID none,
         .access "/dev/console" F_OK] ++
        (if kernel
            [.signal SIGTERM .handle_signal,
             .mount (some "proc") (some "/proc") (some "proc")
               (MS_NOSUID ||| MS_NOEXEC ||| MS_NODEV) none,
             .mount (some "sysfs") (some "/sys") (some "sysfs")
               (MS_NOSUID ||| MS_NOEXEC ||| MS_NODEV) none,
             .mount (some "devtmpfs") (some "/dev") (some "devtmpfs") MS_NOSUID none,
             .access "/dev/console" F_OK] ≠ 0
          then [.mknod "/dev/console" (S_IFCHR ||| 0o600) (makedev 5 1)] else []) ++
        [.system "/etc/network/setup.sh", .pause] ++ rest) ∧
    (∃ w rest, main kernel (SIGTERM :: sigs) = some w ∧
      w.trace =
        [.signal SIGTERM .handle_signal,
         .mount (some "proc") (some "/proc") (some "proc")
           (MS_NOSUID ||| MS_NOEXEC ||| MS_NODEV) none,
         .mount (some "sysfs") (some "/sys") (some "sysfs")
           (MS_NOSUID ||| MS_NOEXEC ||| MS_NODEV) none,
         .mount (some "devtmpfs") (some "/dev") (some "devtmpfs") MS_NOSUID none,
         .access "/dev/console" F_OK] ++
        (if kernel
            [.signal SIGTERM .handle_signal,
             .mount (some "proc") (some "/proc") (some "proc")
               (MS_NOSUID ||| MS_NOEXEC ||| MS_NODEV) none,
             .mount (some "sysfs") (some "/sys") (some "sysfs")
               (MS_NOSUID ||| MS_NOEXEC ||| MS_NODEV) none,
             .mount (some "devtmpfs") (some "/dev") (some "devtmpfs") MS_NOSUID none,
             .access "/dev/console" F_OK] ≠ 0
          then [.mknod "/dev/console" (S_IFCHR ||| 0o600) (makedev 5 1)] else []) ++
        [.system "/etc/network/setup.sh", .pause, .sync,
         .reboot LINUX_REBOOT_CMD_RESTART] ++ rest) := by
  have ht : (atIdle kernel).trace = upToIdle kernel := rfl
  constructor
  · obtain ⟨harm, _, _, _, ext, he, _, _⟩ :=
      idle_spec sigs (atIdle kernel) (atIdle_armed kernel)
    refine ⟨_, ext, main_eq_atIdle kernel sigs, ?_, ?_⟩
    · have hd : (idle (atIdle kernel) sigs).disposition = [(SIGTERM, Handler.handle_signal)] :=
        harm
      simp [World.handler, hd, List.lookup]
    · rw [he, ht]
      rfl
  · by_cases hk : (atIdle kernel).kernel
        ((atIdle kernel).trace ++ [.sync, .reboot LINUX_REBOOT_CMD_RESTART]) = 0
    · refine ⟨_, [], main_eq_atIdle kernel _, ?_⟩
      rw [idle_cons_term_accepted _ (atIdle_armed kernel) sigs hk, ht]
      simp [upToIdle, upToCheck]
    · obtain ⟨_, _, _, _, ext, he, _, _⟩ := idle_spec sigs
        { atIdle kernel with
          trace := (atIdle kernel).trace ++ [.sync, .reboot LINUX_REBOOT_CMD_RESTART, .pause],
          status := .blocked } (atIdle_armed kernel)
      refine ⟨_, .pause :: ext, main_eq_atIdle kernel _, ?_⟩
      rw [idle_cons_term_refused _ (atIdle_armed kernel) sigs hk, he, ht]
      simp [upToIdle, upToCheck]

/-- Claim C8.  When the console check returns any non-zero value, `main`
issues the `mknod` for the console once, directly after the check, and goes
on with the network script and the first `pause`.  A kernel that differs
from `kernel` at most in the results of `mknod` calls gives the same run. -/
theorem C8_check_failure_as_absent (kernel kernel2 : List Call → Int) (sigs : List Int)
    (hfail : kernel
      [.signal SIGTERM .handle_signal,
       .mount (some "proc") (some "/proc") (some "proc")
         (MS_NOSUID ||| MS_NOEXEC ||| MS_NODEV) none,
       .mount (some "sysfs") (some "/sys") (some "sysfs")
         (MS_NOSUID ||| MS_NOEXEC ||| MS_NODEV) none,
       .mount (some "devtmpfs") (some "/dev") (some "devtmpfs") MS_NOSUID none,
       .access "/dev/console" F_OK] ≠ 0)
    (hsame : ∀ t, (∀ p m d, t.getLast? ≠ some (Call.mknod p m d)) → kernel2 t = kernel t) :
    (∃ rest s, run kernel sigs = some (
      [.signal SIGTERM .handle_signal,
       .mount (some "proc") (some "/proc") (some "proc")
         (MS_NOSUID ||| MS_NOEXEC ||| MS_NODEV) none,
       .mount (some "sysfs") (some "/sys") (some "sysfs")
         (MS_NOSUID ||| MS_NOEXEC ||| MS_NODEV) none,
       .mount (some "devtmpfs") (some "/dev") (some "devtmpfs") MS_NOSUID none,
       .access "/dev/console" F_OK,
       .mknod "/dev/console" (S_IFCHR ||| 0o600) (makedev 5 1),
       .system "/etc/network/setup.sh",
       .pause] ++ rest, s) ∧
      ∀ p m d, Call.mknod p m d ∉ rest) ∧
    run kernel2 sigs = run kernel sigs := by
  constructor
  · obtain ⟨_, _, _, _, ext, he, _, hext⟩ :=
      idle_spec sigs (atIdle kernel) (atIdle_armed kernel)
    have ht : (atIdle kernel).trace = upToIdle kernel := rfl
    refine ⟨ext, (idle (atIdle kernel) sigs).status, ?_, ?_⟩
    · rw [run_eq, he, ht, upToIdle_absent kernel hfail]
      simp [upToCheck]
    · intro p m d hm
      rcases hext _ hm with h | h | h <;> simp at h
  · obtain ⟨w, v, hw, hv, htr, _, hst⟩ := main_congr kernel2 kernel sigs
      (fun t p m => hsame _ (by simp)) (fun t c => hsame _ (by simp))
    simp [run, hw, hv, htr, hst]

/-- Witness of C8 : the check fails; the creation fails under one kernel and
succeeds under the other. -/
theorem C8_check_failure_as_absent_witness :
    (∃ rest s, run (fun _ => -1) [SIGTERM] = some (
      [.signal SIGTERM .handle_signal,
       .mount (some "proc") (some "/proc") (some "proc")
         (MS_NOSUID ||| MS_NOEXEC ||| MS_NODEV) none,
       .mount (some "sysfs") (some "/sys") (some "sysfs")
         (MS_NOSUID ||| MS_NOEXEC ||| MS_NODEV) none,
       .mount (some "devtmpfs") (some "/dev") (some "devtmpfs") MS_NOSUID none,
       .access "/dev/console" F_OK,
       .mknod "/dev/console" (S_IFCHR ||| 0o600) (makedev 5 1),
       .system "/etc/network/setup.sh",
       .pause] ++ rest, s) ∧
      ∀ p m d, Call.mknod p m d ∉ rest) ∧
    run (fun t => match t.getLast? with
      | some (.mknod _ _ _) => 0
      | _ => -1) [SIGTERM] = run (fun _ => -1) [SIGTERM] :=
  C8_check_failure_as_absent (fun _ => -1)
    (fun t => match t.getLast? with
      | some (.mknod _ _ _) => 0
      | _ => -1) [SIGTERM]
    (by decide)
    (by
      intro t h
      beta_reduce
      split
      · next p m d heq => exact absurd heq (h p m d)
      · rfl)

/-- Claim C9.  With a kernel that refuses every restart request, a run with
`n` occurrences of `SIGTERM` among its signals is the run without signals
followed by `n` rounds `sync`, `reboot(RESTART)`, `pause`, and the process
is blocked in `pause()`.  Under every kernel, what `main` adds once it idles
is made of `pause`, `sync` and `reboot(RESTART)` calls only, and the run ends
blocked or restarting, never with `main` having returned. -/
theorem C9_idle_forever (kernel : List Call → Int) (sigs : List Int)
    (hrefuse : ∀ t, kernel (t ++ [.reboot LINUX_REBOOT_CMD_RESTART]) ≠ 0) :
    (∃ t, run kernel [] = some (t, .blocked) ∧
      run kernel sigs = some (t ++ (List.replicate (sigs.count SIGTERM)
        [Call.sync, .reboot LINUX_REBOOT_CMD_RESTART, .pause]).flatten, .blocked)) ∧
    ∀ (k2 : List Call → Int) (sigs2 : List Int), ∃ t0 ext s,
      run k2 [] = some (t0 ++ [.pause], .blocked) ∧ run k2 sigs2 = some (t0 ++ [.pause] ++ ext, s) ∧
      (∀ c ∈ ext, c = .sync ∨ c = .reboot LINUX_REBOOT_CMD_RESTART ∨ c = .pause) ∧
      (s = .blocked ∨ s = .restarting) ∧ ∀ code, s ≠ .exited code := by
  constructor
  · refine ⟨upToIdle kernel, by simp [run_eq, idle, atIdle], ?_⟩
    rw [run_eq, idle_refused sigs (atIdle kernel) (atIdle_armed kernel) rfl hrefuse]
    rfl
  · intro k2 sigs2
    obtain ⟨_, _, hst, _, ext, he, _, hext⟩ := idle_spec sigs2 (atIdle k2) (atIdle_armed k2)
    have ht : (atIdle k2).trace = upToIdle k2 := rfl
    refine ⟨upToCheck ++
        (if k2 upToCheck ≠ 0 then [.mknod "/dev/console" (S_IFCHR ||| 0o600) (makedev 5 1)]
         else []) ++ [.system "/etc/network/setup.sh"], ext, _, ?_, ?_, hext, hst rfl, ?_⟩
    · simp [run_eq, idle, atIdle, upToIdle]
    · rw [run_eq, he, ht]
      simp [upToIdle]
    · intro code hc
      rcases hst rfl with h | h <;> rw [h] at hc <;> simp at hc

/-- Witness of C9 : three `SIGTERM`, each restart request refused. -/
theorem C9_idle_forever_witness :
    (∃ t, run (fun _ => -1) [] = some (t, .blocked) ∧
      run (fun _ => -1) [SIGTERM, SIGINT, SIGTERM, SIGTERM] =
        some (t ++ (List.replicate ([SIGTERM, SIGINT, SIGTERM, SIGTERM].count SIGTERM)
          [Call.sync, .reboot LINUX_REBOOT_CMD_RESTART, .pause]).flatten, .blocked)) ∧
    ∀ (k2 : List Call → Int) (sigs2 : List Int), ∃ t0 ext s,
      run k2 [] = some (t0 ++ [.pause], .blocked) ∧ run k2 sigs2 = some (t0 ++ [.pause] ++ ext, s) ∧
      (∀ c ∈ ext, c = .sync ∨ c = .reboot LINUX_REBOOT_CMD_RESTART ∨ c = .pause) ∧
      (s = .blocked ∨ s = .restarting) ∧ ∀ code, s ≠ .exited code :=
  C9_idle_forever (fun _ => -1) [SIGTERM, SIGINT, SIGTERM, SIGTERM] (by intro t; show (-1 : Int) ≠ 0; decide)

end Init
